import Mathlib

/-!
Shallow embedding of the reminder intelligence and scheduling subsystem of the
habit-bot backend (src/services/reminder_intelligence.py, src/tasks/reminder_tasks.py,
src/api/reminders.py, src/models/reminder.py), together with theorems settling the
spec claims about it.

Modelling conventions:
* Timestamps are integers counting minutes since an arbitrary epoch, in UTC.
  The Python code mixes tz-aware and naive datetimes but normalises naive values
  to UTC before comparing (reminder_intelligence.py line 250-251), so a single
  integer timeline is faithful.
* A timezone is modelled as a fixed offset in minutes added to UTC to obtain
  local wall-clock time (DST transitions are out of scope of every claim).
* The database is a list of records; SQLAlchemy query order (ORDER BY ... DESC)
  is modelled by an explicit insertion sort, LIMIT by List.take, and the
  uniqueness pre-check by a scan of the list.
* Python dicts that are built by insertion (questions, per-category maps) are
  modelled as association lists preserving insertion order; dict key lookup is
  alookup.  At every call site in the modelled code the key lists are
  duplicate-free, so an association list built by List.map is faithful.
* The LLM collaborator (src/services/llm.py, out of the modelled core) is an
  oracle parameter: for a category and an optional recent-context it either
  raises, returns a non-list/None value, or returns a list of question strings.
  This mirrors the three failure shapes distinguished by
  generate_questions_for_categories (exception, falsy result, non-list result).
* The surrogate primary key `id` and the audit column `created_at` of the
  Reminder model are DB-assigned and never read by the modelled code; they are
  omitted from the record.
-/

namespace HabitBot

/-- Status of a reminder, from models/reminder.py (ReminderStatus). -/
inductive ReminderStatus where
  | scheduled
  | sent
  | acknowledged
  | completed
  | missed
deriving DecidableEq, Repr, Inhabited

/-- Wall-clock time of day (datetime.time restricted to hour/minute, which is
all the scheduling code reads). -/
structure TimeOfDay where
  hour : Nat
  minute : Nat
deriving DecidableEq, Repr, Inhabited

/-- Minutes since local midnight, as computed by the Python code
(`t.hour * 60 + t.minute`). -/
def TimeOfDay.toMinutes (t : TimeOfDay) : Nat :=
  t.hour * 60 + t.minute

/-- The persisted Reminder row, from models/reminder.py.  `scheduled_time` is a
naive-UTC instant; `categories` is a nullable array column; `questions` is a
JSONB dict modelled as an insertion-ordered association list. -/
structure Reminder where
  user_id : Nat
  scheduled_time : Int
  sent_time : Option Int
  questions : List (String × String)
  categories : Option (List String)
  status : ReminderStatus
deriving DecidableEq, Repr, Inhabited

/-- The persisted Response row fields read by the intelligence service
(models/response.py): owner, timestamp, optional category tag, question and
answer text, soft-delete marker. -/
structure ResponseRec where
  user_id : Nat
  timestamp : Int
  category : Option String
  question_text : String
  response_text : String
  deleted_at : Option Int
deriving DecidableEq, Repr, Inhabited

/-- The static category catalog, in source order
(reminder_intelligence.py, self.all_categories). -/
def all_categories : List String :=
  ["sleep", "nutrition", "physical_activity", "substances", "mental_state",
   "stress_anxiety", "physical_symptoms", "social_interaction",
   "work_productivity", "environment"]

/-- Per-category minimum re-ask interval in hours
(reminder_intelligence.py, self.category_frequency_limits). -/
def category_frequency_limits : List (String × Nat) :=
  [("sleep", 24), ("mental_state", 4), ("stress_anxiety", 6), ("nutrition", 8),
   ("physical_activity", 8), ("substances", 12), ("physical_symptoms", 12),
   ("social_interaction", 12), ("work_productivity", 12), ("environment", 24)]

/-- Association-list lookup, the embedding of Python dict lookup for
insertion-ordered dicts. -/
def alookup {α : Type} (k : String) : List (String × α) → Option α
  | [] => none
  | (k', v) :: rest => if k' = k then some v else alookup k rest

/-- Insert into a list sorted descending by `key` (front = largest). -/
def insert_desc {α : Type} (key : α → Int) (x : α) : List α → List α
  | [] => [x]
  | y :: ys => if key y < key x then x :: y :: ys else y :: insert_desc key x ys

/-- Sort descending by `key`; the embedding of `ORDER BY key DESC`. -/
def sort_desc {α : Type} (key : α → Int) : List α → List α
  | [] => []
  | x :: xs => insert_desc key x (sort_desc key xs)

/-- Stable insert into a list sorted ascending by `key`: `x` is placed before
the first strictly larger element, hence after earlier equal keys. -/
def insert_asc {α : Type} (key : α → Int) (x : α) : List α → List α
  | [] => [x]
  | y :: ys => if key x ≤ key y then x :: y :: ys else y :: insert_asc key x ys

/-- Stable ascending sort by `key`; the embedding of Python `sorted(..., key=...)`. -/
def sort_asc {α : Type} (key : α → Int) : List α → List α
  | [] => []
  | x :: xs => insert_asc key x (sort_asc key xs)

/-- Pair each list element with its position, starting at `i`; the embedding of
Python `enumerate`. -/
def with_index {α : Type} (i : Nat) : List α → List (Nat × α)
  | [] => []
  | x :: xs => (i, x) :: with_index (i + 1) xs

/-- The user's reminders ordered by scheduled_time descending, limited to the
most recent 100 rows — the query of get_last_asked_times
(reminder_intelligence.py lines 124-130). -/
def recent_user_reminders (db : List Reminder) (uid : Nat) : List Reminder :=
  (sort_desc (fun r => r.scheduled_time) (db.filter (fun r => r.user_id = uid))).take 100

/-- One pass of get_last_asked_times over one reminder's category list: record
the reminder's scheduled_time for each category not seen yet. -/
def add_cats (t : Int) (cs : List String) (acc : List (String × Int)) : List (String × Int) :=
  cs.foldl (fun a c => if (alookup c a).isSome then a else a ++ [(c, t)]) acc

/-- The loop of get_last_asked_times over the recent reminders, most recent
first; a reminder with a null or empty category list contributes nothing. -/
def collect_last_asked : List Reminder → List (String × Int) → List (String × Int)
  | [], acc => acc
  | r :: rs, acc => collect_last_asked rs (add_cats r.scheduled_time (r.categories.getD []) acc)

/-- get_last_asked_times (reminder_intelligence.py lines 108-144): for each
category, the scheduled_time of the most recent of the user's last 100
reminders whose category set includes it. -/
def get_last_asked_times (db : List Reminder) (uid : Nat) : List (String × Int) :=
  collect_last_asked (recent_user_reminders db uid) []

/-- Scheduled time of the first reminder in the list whose category set
contains `c`; the specification-level reading of the last-asked scan. -/
def first_with (c : String) : List Reminder → Option Int
  | [] => none
  | r :: rs => if c ∈ r.categories.getD [] then some r.scheduled_time else first_with c rs

/-- Minimum re-ask interval for a category, defaulting to 12 hours
(reminder_intelligence.py line 242). -/
def min_hours_for (c : String) : Nat :=
  (alookup c category_frequency_limits).getD 12

/-- Eligibility test for one category (reminder_intelligence.py lines 243-255):
never asked means eligible; otherwise the hours elapsed since the last-asked
time must reach the category's minimum interval.  `hours_since_asked >= min`
over real-valued hours is exactly `now - t >= 60 * min` over minutes. -/
def is_eligible (last_asked : List (String × Int)) (now : Int) (c : String) : Bool :=
  match alookup c last_asked with
  | none => true
  | some t => 60 * (min_hours_for c : Int) ≤ now - t

/-- The eligible subset of the catalog before the empty-set fallback
(reminder_intelligence.py lines 240-260). -/
def eligible_pre (last_asked : List (String × Int)) (now : Int) : List String :=
  all_categories.filter (is_eligible last_asked now)

/-- Eligible categories with the empty-set fallback: if nothing is eligible the
code substitutes the literal list ["mental_state"]
(reminder_intelligence.py lines 263-265). -/
def eligible_categories (last_asked : List (String × Int)) (now : Int) : List String :=
  let e := eligible_pre last_asked now
  if e = [] then ["mental_state"] else e

/-- Result of analyze_category_coverage (reminder_intelligence.py lines 54-106). -/
structure CoverageAnalysis where
  covered_categories : List String
  gap_categories : List String
  category_counts : List (String × Nat)
  last_response_by_category : List (String × Int)
  total_responses : Nat
deriving DecidableEq, Repr, Inhabited

/-- Increment the count for `c`, appending a fresh entry on first sight
(first-insertion dict order). -/
def bump_count (c : String) : List (String × Nat) → List (String × Nat)
  | [] => [(c, 1)]
  | (k, n) :: rest => if k = c then (k, n + 1) :: rest else (k, n) :: bump_count c rest

/-- Record timestamp `t` for `c`, keeping the larger of the stored and new
timestamps (the `>` update of lines 91-95). -/
def record_latest (c : String) (t : Int) : List (String × Int) → List (String × Int)
  | [] => [(c, t)]
  | (k, u) :: rest =>
    if k = c then (k, if u < t then t else u) :: rest else (k, u) :: record_latest c t rest

/-- The accumulation loop of analyze_category_coverage over the in-window
responses: responses without a category tag are ignored. -/
def coverage_fold : List ResponseRec → List (String × Nat) × List (String × Int) →
    List (String × Nat) × List (String × Int)
  | [], acc => acc
  | r :: rs, (counts, latest) =>
    match r.category with
    | none => coverage_fold rs (counts, latest)
    | some c => coverage_fold rs (bump_count c counts, record_latest c r.timestamp latest)

/-- analyze_category_coverage (reminder_intelligence.py lines 54-106): classify
catalog categories as covered (some non-deleted response of the user within the
lookback window) or gap, with per-category counts and latest timestamps. -/
def analyze_category_coverage (uid : Nat) (responses : List ResponseRec) (now : Int)
    (lookback_hours : Nat) : CoverageAnalysis :=
  let cutoff : Int := now - (lookback_hours : Int) * 60
  let recent := responses.filter
    (fun r => r.user_id = uid ∧ cutoff ≤ r.timestamp ∧ r.deleted_at = none)
  let cl := coverage_fold recent ([], [])
  let covered := cl.1.map Prod.fst
  { covered_categories := covered
    gap_categories := all_categories.filter (fun c => ¬ c ∈ covered)
    category_counts := cl.1
    last_response_by_category := cl.2
    total_responses := recent.length }

/-- One recent-context item handed to the LLM collaborator: timestamp,
question text, response text (get_recent_context lines 170-177). -/
abbrev ContextItem : Type := Int × String × String

/-- get_recent_context (reminder_intelligence.py lines 146-177): the user's
most recent non-deleted responses for a category, newest first, limited. -/
def get_recent_context (uid : Nat) (responses : List ResponseRec) (c : String)
    (limit : Nat) : List ContextItem :=
  ((sort_desc (fun r => r.timestamp)
      (responses.filter (fun r => r.user_id = uid ∧ r.category = some c ∧ r.deleted_at = none))).take
    limit).map (fun r => (r.timestamp, r.question_text, r.response_text))

/-- Possible outcomes of one call to the external text-generation collaborator,
as distinguished by the calling code: an exception, a falsy or non-list value,
or a list of question strings. -/
inductive LLMReply where
  | raise
  | notList
  | value (qs : List String)
deriving DecidableEq, Repr, Inhabited

/-- The external LLM collaborator as a deterministic oracle over the category
and the optional recent-context payload. -/
def LLMOracle : Type := String → Option (List ContextItem) → LLMReply

/-- Replace underscores by spaces; the embedding of Python
`category.replace('_', ' ')` (a single-character pattern, hence a char map). -/
def un_underscore (s : String) : String :=
  ⟨s.data.map (fun ch => if ch = '_' then ' ' else ch)⟩

/-- The deterministic fallback question of generate_questions_for_categories
(reminder_intelligence.py lines 207-209 and 213-215). -/
def canned_question (c : String) : String :=
  "How are you doing with your " ++ un_underscore c ++ "?"

/-- Question list for one category (generate_questions_for_categories, lines
194-215): on a non-empty list reply keep at most the first 4 questions; on an
exception, a falsy value or a non-list value fall back to the single canned
question.  No failure of the collaborator escapes this function. -/
def questions_for_category (llm : LLMOracle) (uid : Nat) (responses : List ResponseRec)
    (c : String) : List String :=
  let ctx := get_recent_context uid responses c 3
  let ctx_opt := if ctx = [] then none else some ctx
  match llm c ctx_opt with
  | LLMReply.value qs => if qs = [] then [canned_question c] else qs.take 4
  | _ => [canned_question c]

/-- generate_questions_for_categories (reminder_intelligence.py lines 179-217):
a category-keyed dict, one entry per input category in input order. -/
def generate_questions_for_categories (llm : LLMOracle) (uid : Nat)
    (responses : List ResponseRec) (cats : List String) : List (String × List String) :=
  cats.map (fun c => (c, questions_for_category llm uid responses c))

/-- Flatten the per-category question lists into one dict with run-global keys
q1, q2, ... in iteration order (generate_intelligent_reminder lines 297-306). -/
def flatten_questions (qbc : List (String × List String)) : List (String × String) :=
  (with_index 0 (qbc.foldr (fun p acc => p.2 ++ acc) [])).map
    (fun p => ("q" ++ toString (p.1 + 1), p.2))

/-- The value returned by generate_intelligent_reminder that the schedulers
consume: the flattened question dict and the target category list.  The
human-readable reasoning string and the embedded analysis dict are logging
payload never read by the scheduling logic and are not modelled. -/
structure ReminderData where
  questions : List (String × String)
  categories : List String
deriving DecidableEq, Repr, Inhabited

/-- Sentinel for Python's `datetime.min` used as the sort default for covered
categories; every covered category has a recorded timestamp, so the default is
never reached, and any value far below real timestamps is faithful. -/
def datetime_min : Int := -(2 ^ 60)

/-- The target selection of generate_intelligent_reminder (lines 270-290):
gaps restricted to eligible categories first (up to 3), covered eligible
categories sorted stalest-first filling the remainder, and the eligible list
truncated to 3 as the final fallback. -/
def select_target_categories (eligible : List String) (analysis : CoverageAnalysis) :
    List String :=
  let gap_cats := analysis.gap_categories.filter (fun c => c ∈ eligible)
  let covered_cats := analysis.covered_categories.filter (fun c => c ∈ eligible)
  let target0 := gap_cats.take 3
  let target1 :=
    if target0.length < 3 ∧ covered_cats ≠ [] then
      target0 ++ (sort_asc
        (fun c => (alookup c analysis.last_response_by_category).getD datetime_min)
        covered_cats).take (3 - target0.length)
    else target0
  if target1 = [] then eligible.take 3 else target1

/-- generate_intelligent_reminder (reminder_intelligence.py lines 219-320):
eligibility filtering with the mental_state fallback, coverage analysis over a
24h lookback, gap-first target selection capped at 3 categories (covered ones
filling up, stalest first), question generation, and flattening. -/
def generate_intelligent_reminder (llm : LLMOracle) (now : Int) (uid : Nat)
    (db : List Reminder) (responses : List ResponseRec) : ReminderData :=
  let last_asked := get_last_asked_times db uid
  let eligible := eligible_categories last_asked now
  let analysis := analyze_category_coverage uid responses now 24
  let target := select_target_categories eligible analysis
  let qbc := generate_questions_for_categories llm uid responses target
  { questions := flatten_questions qbc, categories := qbc.map Prod.fst }

/-- _calculate_reminder_times (reminder_tasks.py lines 242-274): evenly spaced
local times between wake and screens-off.  The end minute is advanced by a day
when strictly before the wake minute; slot i (1-indexed) sits at local minute
(wake + interval * i) mod 1440 with interval the floor-divided window share. -/
def calculate_reminder_times (wake endT : TimeOfDay) (num_reminders : Nat) : List TimeOfDay :=
  let wakeM := wake.toMinutes
  let endM0 := endT.toMinutes
  let endM := if endM0 < wakeM then endM0 + 24 * 60 else endM0
  let total := endM - wakeM
  let interval := total / (num_reminders + 1)
  (List.range num_reminders).map (fun j =>
    { hour := (wakeM + interval * (j + 1)) % (24 * 60) / 60,
      minute := (wakeM + interval * (j + 1)) % (24 * 60) % 60 })

/-- The question slice handed to slot `i` (reminder_tasks.py lines 205-216):
keys from start = i * questions_per_reminder up to start + questions_per_reminder,
with the last slot absorbing the remainder.  The slice keeps the run-global
keys of the flattened dict. -/
def slot_questions (qs : List (String × String)) (qper num_r i : Nat) : List (String × String) :=
  let start := i * qper
  let stop := if i = num_r - 1 then qs.length else start + qper
  (qs.drop start).take (stop - start)

/-- The Reminder row inserted per accepted slot (reminder_tasks.py lines
221-227): status SCHEDULED, sent_time null, the full target category list. -/
def mk_scheduled_reminder (uid : Nat) (t : Int) (qs : List (String × String))
    (cats : List String) : Reminder :=
  { user_id := uid, scheduled_time := t, sent_time := none, questions := qs,
    categories := some cats, status := ReminderStatus.scheduled }

/-- The per-slot loop of create_scheduled_reminders_for_user (reminder_tasks.py
lines 184-230): skip a slot whose local instant is not in the future, skip when
a reminder of this user already exists at the computed UTC instant (the check
sees rows committed earlier in the same loop), skip when the question slice is
empty; otherwise insert the new row and count it. -/
def schedule_slots (uid : Nat) (now_local today_start tz : Int) (data : ReminderData)
    (num_r qper : Nat) : List (Nat × TimeOfDay) → List Reminder → List Reminder × Nat
  | [], db => (db, 0)
  | (i, t) :: rest, db =>
    let sched_local := today_start + (t.toMinutes : Int)
    if sched_local ≤ now_local then
      schedule_slots uid now_local today_start tz data num_r qper rest db
    else
      let sched_utc := sched_local - tz
      if db.any (fun r => r.user_id = uid ∧ r.scheduled_time = sched_utc) then
        schedule_slots uid now_local today_start tz data num_r qper rest db
      else
        let rq := slot_questions data.questions qper num_r i
        if rq = [] then
          schedule_slots uid now_local today_start tz data num_r qper rest db
        else
          let res := schedule_slots uid now_local today_start tz data num_r qper rest
            (db ++ [mk_scheduled_reminder uid sched_utc rq data.categories])
          (res.1, res.2 + 1)

/-- create_scheduled_reminders_for_user (reminder_tasks.py lines 128-239), after
user lookup and timezone/window resolution: generate the intelligent reminder
data, clamp the slot count to `min 4 (max 2 (questions // 3))`, compute the
local slot times, and run the per-slot loop.  Local midnight of "today" in the
user's timezone is the floor of local now to a whole day; a slot's stored UTC
instant is its local instant minus the timezone offset. -/
def create_scheduled_reminders_for_user (llm : LLMOracle) (now_utc tz : Int)
    (wake endT : TimeOfDay) (uid : Nat) (db : List Reminder)
    (responses : List ResponseRec) : List Reminder × Nat :=
  let now_local := now_utc + tz
  let today_start := (Int.fdiv now_local 1440) * 1440
  let data := generate_intelligent_reminder llm now_utc uid db responses
  let num_r := min 4 (max 2 (data.questions.length / 3))
  let times := calculate_reminder_times wake endT num_r
  let qper := max 1 (data.questions.length / num_r)
  schedule_slots uid now_local today_start tz data num_r qper (with_index 0 times) db

/-- A fragment of the tz database consulted by pytz.timezone, mapping IANA
names to fixed UTC offsets in minutes. -/
def tz_table : List (String × Int) :=
  [("UTC", 0), ("America/New_York", -300), ("America/Los_Angeles", -480),
   ("Europe/London", 0), ("Australia/Sydney", 600)]

/-- Timezone resolution of reminder_tasks.py line 150:
`pytz.timezone(user.timezone) if user.timezone else pytz.UTC`.  A falsy stored
value (absent or empty string) falls back to UTC; a non-empty string is looked
up in the tz database and an unknown name raises (Except.error), which the
task body does not catch. -/
def resolve_user_timezone (table : List (String × Int)) (user_tz : Option String) :
    Except String Int :=
  match user_tz with
  | none => Except.ok 0
  | some s =>
    if s = "" then Except.ok 0
    else
      match alookup s table with
      | some off => Except.ok off
      | none => Except.error s

/-- The create_scheduled_reminders_for_user task boundary (reminder_tasks.py
lines 149-156): resolve the timezone (propagating the pytz exception on an
unknown non-empty name), substitute the 08:00 wake and 21:00 screens-off
defaults (screens_off falling back to sleep_time first), then run the
scheduling body.  The user-existence check precedes this and is not modelled
(no claim touches it). -/
def create_scheduled_reminders_task (table : List (String × Int))
    (user_tz : Option String) (user_wake user_screens_off user_sleep : Option TimeOfDay)
    (llm : LLMOracle) (now_utc : Int) (uid : Nat) (db : List Reminder)
    (responses : List ResponseRec) : Except String (List Reminder × Nat) :=
  match resolve_user_timezone table user_tz with
  | Except.error e => Except.error e
  | Except.ok off =>
    let wake := user_wake.getD { hour := 8, minute := 0 }
    let endT := (user_screens_off.orElse (fun _ => user_sleep)).getD { hour := 21, minute := 0 }
    Except.ok (create_scheduled_reminders_for_user llm now_utc off wake endT uid db responses)

/-- The body of POST /reminders/{id}/acknowledge (api/reminders.py lines
233-243): set status to ACKNOWLEDGED unconditionally, whatever the current
status is. -/
def acknowledge_reminder (r : Reminder) : Reminder :=
  { r with status := ReminderStatus.acknowledged }

/-- The PATCH /reminders/{id} payload (schemas/reminder.py ReminderUpdate):
pydantic distinguishes unset fields (outer none) from explicitly given values. -/
structure ReminderUpdate where
  status : Option ReminderStatus
  sent_time : Option (Option Int)
deriving DecidableEq, Repr, Inhabited

/-- The body of PATCH /reminders/{id} (api/reminders.py lines 100-115): setattr
every field present in the payload, with no check against the current status. -/
def update_reminder (upd : ReminderUpdate) (r : Reminder) : Reminder :=
  let r1 := match upd.status with
    | none => r
    | some s => { r with status := s }
  match upd.sent_time with
  | none => r1
  | some st => { r1 with sent_time := st }

/-- The POST /reminders/ payload (schemas/reminder.py ReminderCreate): no
validation constrains questions or categories to be non-empty. -/
structure ReminderCreate where
  user_id : Nat
  scheduled_time : Int
  questions : List (String × String)
  categories : Option (List String)
deriving DecidableEq, Repr, Inhabited

/-- The row built by ReminderModel(**reminder.model_dump()): payload fields
carried over verbatim, status defaulting to SCHEDULED, sent_time null. -/
def reminder_of_create (rc : ReminderCreate) : Reminder :=
  { user_id := rc.user_id, scheduled_time := rc.scheduled_time, sent_time := none,
    questions := rc.questions, categories := rc.categories,
    status := ReminderStatus.scheduled }

/-- The body of POST /reminders/ (api/reminders.py lines 18-29): 404 when the
user does not exist, otherwise persist the payload exactly as given. -/
def create_reminder (user_exists : Bool) (db : List Reminder) (rc : ReminderCreate) :
    Except String (List Reminder) :=
  if user_exists then Except.ok (db ++ [reminder_of_create rc])
  else Except.error "User not found"

/-- The loop of schedule_pending_reminders over the reminder table: promote a
due SCHEDULED reminder to SENT while fewer than `limit` rows have been
promoted this run.  The Python body also assigns `reminder.sent_at = now`, but
`sent_at` is not a column of the Reminder model (models/reminder.py declares
`sent_time`), so the assignment creates a transient Python attribute and the
persisted row changes only in `status`. -/
def sweep_go (now : Int) (limit : Nat) : List Reminder → Nat → List Reminder × Nat
  | [], k => ([], k)
  | r :: rs, k =>
    if k < limit ∧ r.status = ReminderStatus.scheduled ∧ r.scheduled_time ≤ now then
      let res := sweep_go now limit rs (k + 1)
      ({ r with status := ReminderStatus.sent } :: res.1, res.2)
    else
      let res := sweep_go now limit rs k
      (r :: res.1, res.2)

/-- schedule_pending_reminders (reminder_tasks.py lines 14-51): the periodic
sweep promoting up to 50 due SCHEDULED reminders to SENT, returning the
updated table and the number sent. -/
def schedule_pending_reminders (db : List Reminder) (now : Int) : List Reminder × Nat :=
  sweep_go now 50 db 0

/-- An LLM oracle returning four questions for the first three catalog
categories and one question for every other category. -/
def llm_two_phase : LLMOracle := fun c _ =>
  if c = "sleep" ∨ c = "nutrition" ∨ c = "physical_activity" then
    LLMReply.value ["a", "b", "c", "d"]
  else LLMReply.value ["e"]

/-- An LLM oracle that always raises. -/
def llm_fail : LLMOracle := fun _ _ => LLMReply.raise

/-- An LLM oracle returning a single question for every category. -/
def llm_one_each : LLMOracle := fun _ _ => LLMReply.value ["e"]

/-- Wake time 08:00. -/
def w8 : TimeOfDay := { hour := 8, minute := 0 }

/-- Screens-off time 20:00. -/
def w20 : TimeOfDay := { hour := 20, minute := 0 }

/-- A reminder scheduled at the current instant covering eight of the ten
catalog categories. -/
def r_recent : Reminder :=
  { user_id := 1, scheduled_time := 360, sent_time := none, questions := [("q1", "x")],
    categories := some ["sleep", "nutrition", "physical_activity", "substances", "mental_state",
      "stress_anxiety", "physical_symptoms", "social_interaction"],
    status := ReminderStatus.scheduled }

/-- A reminder already in the terminal COMPLETED state. -/
def r_completed : Reminder :=
  { user_id := 1, scheduled_time := 0, sent_time := none, questions := [("q1", "x")],
    categories := some ["sleep"], status := ReminderStatus.completed }

/-- A due reminder still in SCHEDULED state. -/
def r_due : Reminder :=
  { user_id := 1, scheduled_time := 100, sent_time := none, questions := [("q1", "x")],
    categories := some ["sleep"], status := ReminderStatus.scheduled }

/-- A create-endpoint payload with an empty questions mapping and an empty
category list. -/
def rc_empty : ReminderCreate :=
  { user_id := 1, scheduled_time := 0, questions := [], categories := some [] }

/-- The row the create endpoint persists for rc_empty: empty questions, empty
categories, status SCHEDULED. -/
def r_empty : Reminder :=
  { user_id := 1, scheduled_time := 0, sent_time := none, questions := [],
    categories := some [], status := ReminderStatus.scheduled }

/-- Rank of a status in the lifecycle partial order
SCHEDULED < SENT < {ACKNOWLEDGED, MISSED} < COMPLETED. -/
def status_rank : ReminderStatus → Nat
  | ReminderStatus.scheduled => 0
  | ReminderStatus.sent => 1
  | ReminderStatus.acknowledged => 2
  | ReminderStatus.missed => 2
  | ReminderStatus.completed => 3

/-- Terminal states of the lifecycle. -/
def is_terminal (s : ReminderStatus) : Bool :=
  s = ReminderStatus.completed ∨ s = ReminderStatus.missed

theorem sweep_go_length (now : Int) (lim : Nat) (l : List Reminder) (k : Nat) :
    (sweep_go now lim l k).1.length = l.length := by
  induction l generalizing k with
  | nil => rfl
  | cons r rs ih =>
    simp only [sweep_go]
    split
    · simpa using ih (k + 1)
    · simpa using ih k

theorem sweep_go_getD (now : Int) (lim : Nat) (l : List Reminder) (k i : Nat)
    (h : i < l.length) :
    (sweep_go now lim l k).1.getD i default = l.getD i default ∨
    ((l.getD i default).status = ReminderStatus.scheduled ∧
     (l.getD i default).scheduled_time ≤ now ∧
     (sweep_go now lim l k).1.getD i default =
       { l.getD i default with status := ReminderStatus.sent }) := by
  induction l generalizing k i with
  | nil => simp at h
  | cons r rs ih =>
    simp only [sweep_go]
    split
    case isTrue hc =>
      cases i with
      | zero => right; refine ⟨by simpa using hc.2.1, by simpa using hc.2.2, by simp⟩
      | succ j =>
        have hj : j < rs.length := by simpa using h
        simpa using ih (k + 1) j hj
    case isFalse hc =>
      cases i with
      | zero => left; simp
      | succ j =>
        have hj : j < rs.length := by simpa using h
        simpa using ih k j hj

/-- C1 counterexample: the acknowledge endpoint applied to a reminder in the
terminal COMPLETED state writes ACKNOWLEDGED, a status strictly earlier in the
lifecycle order, so the claimed monotonicity and terminal-state preservation
fail on the code. -/
theorem C1_counterexample :
    is_terminal r_completed.status = true ∧
    (acknowledge_reminder r_completed).status = ReminderStatus.acknowledged ∧
    status_rank (acknowledge_reminder r_completed).status < status_rank r_completed.status := by
  decide

/-- C1 amended: only the SCHEDULED-to-SENT sweep is monotonic (it promotes a
due SCHEDULED reminder to SENT and touches nothing else, never leaving a
terminal state); the acknowledge endpoint writes ACKNOWLEDGED unconditionally
and the PATCH endpoint writes exactly the requested status, with no guard
against regressing the lifecycle order. -/
theorem C1_lifecycle_amended :
    (∀ r : Reminder, (acknowledge_reminder r).status = ReminderStatus.acknowledged) ∧
    (∀ (upd : ReminderUpdate) (r : Reminder),
      (update_reminder upd r).status = upd.status.getD r.status) ∧
    (∀ (db : List Reminder) (now : Int) (i : Nat), i < db.length →
      status_rank (db.getD i default).status ≤
        status_rank ((schedule_pending_reminders db now).1.getD i default).status ∧
      (is_terminal (db.getD i default).status = true →
        (schedule_pending_reminders db now).1.getD i default = db.getD i default)) := by
  refine ⟨fun r => rfl, ?_, ?_⟩
  · intro upd r
    unfold update_reminder
    cases upd.status <;> cases upd.sent_time <;> rfl
  · intro db now i h
    rcases sweep_go_getD now 50 db 0 i h with heq | ⟨hs, _, heq⟩
    · rw [schedule_pending_reminders, heq]
      exact ⟨Nat.le_refl _, fun _ => rfl⟩
    · constructor
      · rw [schedule_pending_reminders, heq, hs]
        simp [status_rank]
      · intro ht
        rw [hs] at ht
        exact absurd ht (by decide)

/-- Witness for C1_lifecycle_amended at a concrete due reminder. -/
theorem C1_lifecycle_amended_witness :
    status_rank ([r_due].getD 0 default).status ≤
      status_rank ((schedule_pending_reminders [r_due] 200).1.getD 0 default).status :=
  (C1_lifecycle_amended.2.2 [r_due] 200 0 (by decide)).1

/-- C10: when the periodic sweep promotes a due SCHEDULED reminder, the only
persisted field it changes is status; in particular sent_time is unchanged
(it stays null) because the Python body assigns to `sent_at`, which is not a
column of the Reminder model. -/
theorem C10_sweep_frame (db : List Reminder) (now : Int) (i : Nat) (h : i < db.length) :
    ((schedule_pending_reminders db now).1.getD i default).user_id =
      (db.getD i default).user_id ∧
    ((schedule_pending_reminders db now).1.getD i default).scheduled_time =
      (db.getD i default).scheduled_time ∧
    ((schedule_pending_reminders db now).1.getD i default).sent_time =
      (db.getD i default).sent_time ∧
    ((schedule_pending_reminders db now).1.getD i default).questions =
      (db.getD i default).questions ∧
    ((schedule_pending_reminders db now).1.getD i default).categories =
      (db.getD i default).categories ∧
    ((schedule_pending_reminders db now).1.getD i default = db.getD i default ∨
      ((db.getD i default).status = ReminderStatus.scheduled ∧
       (db.getD i default).scheduled_time ≤ now ∧
       ((schedule_pending_reminders db now).1.getD i default).status = ReminderStatus.sent)) := by
  rcases sweep_go_getD now 50 db 0 i h with heq | ⟨hs, hle, heq⟩
  · rw [schedule_pending_reminders, heq]
    exact ⟨rfl, rfl, rfl, rfl, rfl, Or.inl rfl⟩
  · rw [schedule_pending_reminders, heq]
    exact ⟨rfl, rfl, rfl, rfl, rfl, Or.inr ⟨hs, hle, rfl⟩⟩

/-- Witness for C10_sweep_frame: the promoted due reminder keeps its null
sent_time. -/
theorem C10_sweep_frame_witness :
    ((schedule_pending_reminders [r_due] 200).1.getD 0 default).sent_time =
      ([r_due].getD 0 default).sent_time :=
  (C10_sweep_frame [r_due] 200 0 (by decide)).2.2.1

/-- C6: slot i (1-indexed) of the slot computation sits at local minute
(wake + interval * i) mod 1440, where interval floor-divides the (overnight
adjusted) window by num_slots + 1; concretely wake 08:00, screens-off 20:00
and 3 slots give 11:00, 14:00 and 17:00. -/
theorem C6_even_spacing :
    (∀ (wake endT : TimeOfDay) (n i : Nat), i < n →
      ((calculate_reminder_times wake endT n).getD i default).toMinutes =
        (wake.toMinutes +
          ((if endT.toMinutes < wake.toMinutes then endT.toMinutes + 24 * 60
            else endT.toMinutes) - wake.toMinutes) / (n + 1) * (i + 1)) % (24 * 60)) ∧
    calculate_reminder_times { hour := 8, minute := 0 } { hour := 20, minute := 0 } 3 =
      [{ hour := 11, minute := 0 }, { hour := 14, minute := 0 }, { hour := 17, minute := 0 }] := by
  constructor
  · intro wake endT n i h
    have hlen : i < ((List.range n).map (fun j =>
        TimeOfDay.mk
          ((wake.toMinutes +
            ((if endT.toMinutes < wake.toMinutes then endT.toMinutes + 24 * 60
              else endT.toMinutes) - wake.toMinutes) / (n + 1) * (j + 1)) % (24 * 60) / 60)
          ((wake.toMinutes +
            ((if endT.toMinutes < wake.toMinutes then endT.toMinutes + 24 * 60
              else endT.toMinutes) - wake.toMinutes) / (n + 1) * (j + 1)) % (24 * 60) % 60))).length := by
      simpa using h
    rw [calculate_reminder_times, List.getD_eq_getElem _ _ hlen]
    simp only [List.getElem_map, List.getElem_range, TimeOfDay.toMinutes]
    omega
  · rfl

/-- Witness for C6_even_spacing: the first slot of the concrete scenario is
minute 660, i.e. 11:00 local. -/
theorem C6_even_spacing_witness :
    ((calculate_reminder_times { hour := 8, minute := 0 } { hour := 20, minute := 0 } 3).getD
      0 default).toMinutes = 660 :=
  (C6_even_spacing.1 { hour := 8, minute := 0 } { hour := 20, minute := 0 } 3 0
    (by decide)).trans (by decide)

/-- C9 counterexample: a stored timezone string unknown to the tz database
makes the scheduling task raise (Except.error) instead of falling back to UTC
and completing. -/
theorem C9_counterexample :
    create_scheduled_reminders_task tz_table (some "Invalid/Zone") none none none
      llm_fail 360 1 [] [] = Except.error "Invalid/Zone" := by
  rfl

/-- C9 amended: an unset timezone (absent or empty string) resolves to UTC and
the run completes normally, and a timezone known to the tz database resolves to
its offset and completes; an unknown non-empty timezone string raises and
aborts the run (see the counterexample). -/
theorem C9_timezone_amended :
    (∀ (table : List (String × Int)) (uw uso usl : Option TimeOfDay) (llm : LLMOracle)
      (now : Int) (uid : Nat) (db : List Reminder) (responses : List ResponseRec),
      create_scheduled_reminders_task table none uw uso usl llm now uid db responses =
        Except.ok (create_scheduled_reminders_for_user llm now 0
          (uw.getD { hour := 8, minute := 0 })
          ((uso.orElse (fun _ => usl)).getD { hour := 21, minute := 0 }) uid db responses) ∧
      create_scheduled_reminders_task table (some "") uw uso usl llm now uid db responses =
        Except.ok (create_scheduled_reminders_for_user llm now 0
          (uw.getD { hour := 8, minute := 0 })
          ((uso.orElse (fun _ => usl)).getD { hour := 21, minute := 0 }) uid db responses)) ∧
    (∀ (table : List (String × Int)) (s : String) (off : Int)
      (uw uso usl : Option TimeOfDay) (llm : LLMOracle) (now : Int) (uid : Nat)
      (db : List Reminder) (responses : List ResponseRec),
      alookup s table = some off → s ≠ "" →
      create_scheduled_reminders_task table (some s) uw uso usl llm now uid db responses =
        Except.ok (create_scheduled_reminders_for_user llm now off
          (uw.getD { hour := 8, minute := 0 })
          ((uso.orElse (fun _ => usl)).getD { hour := 21, minute := 0 }) uid db responses)) := by
  constructor
  · intro table uw uso usl llm now uid db responses
    exact ⟨rfl, rfl⟩
  · intro table s off uw uso usl llm now uid db responses hfound hne
    unfold create_scheduled_reminders_task resolve_user_timezone
    simp [hne, hfound]

/-- Witness for C9_timezone_amended: the known name UTC resolves to offset 0
and the task completes. -/
theorem C9_timezone_amended_witness :
    create_scheduled_reminders_task tz_table (some "UTC") none none none llm_fail 0 1 [] [] =
      Except.ok (create_scheduled_reminders_for_user llm_fail 0 0 { hour := 8, minute := 0 }
        { hour := 21, minute := 0 } 1 [] []) :=
  C9_timezone_amended.2 tz_table "UTC" 0 none none none llm_fail 0 1 [] []
    (by decide) (by decide)

/-- C2 counterexample: same "now", no intervening response or reminder
activity, deterministic collaborator — yet the second scheduling run creates 2
new reminders.  The first run targets the first three catalog categories
(12 questions, 4 slots at 10:24, 12:48, 15:12, 17:36); those categories are
then ineligible, so the second run targets three fresh categories, gets 3
questions, computes 2 slots at 12:00 and 16:00, and persists both. -/
theorem C2_counterexample :
    (create_scheduled_reminders_for_user llm_two_phase 360 0 w8 w20 1 [] []).2 = 4 ∧
    (create_scheduled_reminders_for_user llm_two_phase 360 0 w8 w20 1
      (create_scheduled_reminders_for_user llm_two_phase 360 0 w8 w20 1 [] []).1 []).2 = 2 ∧
    ¬ (create_scheduled_reminders_for_user llm_two_phase 360 0 w8 w20 1
      (create_scheduled_reminders_for_user llm_two_phase 360 0 w8 w20 1 [] []).1 []).2 = 0 := by
  refine ⟨by decide, by decide, by decide⟩

/-- C5 counterexample: the manual create endpoint persists a reminder with an
empty questions mapping and an empty category list without complaint. -/
theorem C5_counterexample :
    create_reminder true [] rc_empty = Except.ok [r_empty] ∧
    (reminder_of_create rc_empty).questions = [] ∧
    (reminder_of_create rc_empty).categories = some [] := by
  exact ⟨rfl, rfl, rfl⟩

/-- C8 counterexample: in a run that persists two one-question reminders, the
second persisted reminder's question dict has the single key "q2" — the keys
keep the run-global numbering instead of being renumbered from q1 within each
reminder. -/
theorem C8_counterexample :
    ((create_scheduled_reminders_for_user llm_one_each 360 0 w8 w20 1 [r_recent] []).1.getD
        2 default).questions.map Prod.fst = ["q2"] ∧
    ¬ ((create_scheduled_reminders_for_user llm_one_each 360 0 w8 w20 1 [r_recent] []).1.getD
        2 default).questions.map Prod.fst = ["q1"] ∧
    ((create_scheduled_reminders_for_user llm_one_each 360 0 w8 w20 1 [r_recent] []).1.getD
        2 default).status = ReminderStatus.scheduled := by
  refine ⟨by decide, by decide, by decide⟩

theorem div_slot_lt (total n j : Nat) (hj : j < n) (ht : 0 < total) :
    total / (n + 1) * (j + 1) < total := by
  rcases Nat.eq_zero_or_pos (total / (n + 1)) with h0 | hpos
  · simpa [h0] using ht
  · have h2 : total / (n + 1) * (j + 1) ≤ total / (n + 1) * n :=
      Nat.mul_le_mul_left _ (by omega)
    have h3 : total / (n + 1) * (n + 1) ≤ total := Nat.div_mul_le_self total (n + 1)
    have h4 : total / (n + 1) * (n + 1) = total / (n + 1) * n + total / (n + 1) := by ring
    omega

/-- C4: every local wall-clock time produced by the slot computation is the
reduction mod 1440 of a minute value lying in [wake, screens_off), where the
end of the window is advanced by 24h when screens_off ≤ wake (the wrapped
overnight window of spec step 1). -/
theorem C4_window_containment (wake endT : TimeOfDay) (n : Nat)
    (hw : wake.hour < 24 ∧ wake.minute < 60) (he : endT.hour < 24 ∧ endT.minute < 60) :
    ∀ t ∈ calculate_reminder_times wake endT n,
      ∃ m : Nat, t.toMinutes = m % (24 * 60) ∧ wake.toMinutes ≤ m ∧
        m < (if endT.toMinutes ≤ wake.toMinutes then endT.toMinutes + 24 * 60
             else endT.toMinutes) := by
  intro t ht
  have hW : wake.toMinutes < 1440 := by simp only [TimeOfDay.toMinutes]; omega
  simp only [calculate_reminder_times, List.mem_map, List.mem_range] at ht
  obtain ⟨j, hj, rfl⟩ := ht
  refine ⟨wake.toMinutes +
      ((if endT.toMinutes < wake.toMinutes then endT.toMinutes + 24 * 60
        else endT.toMinutes) - wake.toMinutes) / (n + 1) * (j + 1), ?_, ?_, ?_⟩
  · simp only [TimeOfDay.toMinutes]
    omega
  · exact Nat.le_add_right _ _
  · rcases Nat.lt_or_ge endT.toMinutes wake.toMinutes with h1 | h1
    · rw [if_pos h1, if_pos (Nat.le_of_lt h1)]
      have ht0 : 0 < endT.toMinutes + 24 * 60 - wake.toMinutes := by omega
      have := div_slot_lt (endT.toMinutes + 24 * 60 - wake.toMinutes) n j hj ht0
      omega
    · rcases Nat.eq_or_lt_of_le h1 with hEq | hlt
      · rw [if_neg (by omega), if_pos (by omega)]
        have hz : endT.toMinutes - wake.toMinutes = 0 := by omega
        rw [hz]
        simp
        omega
      · rw [if_neg (by omega), if_neg (by omega)]
        have ht0 : 0 < endT.toMinutes - wake.toMinutes := by omega
        have := div_slot_lt (endT.toMinutes - wake.toMinutes) n j hj ht0
        omega

/-- Witness for C4_window_containment at the concrete 08:00-20:00 window with
3 slots, checked on its first slot (11:00). -/
theorem C4_window_containment_witness :
    ∃ m : Nat, (TimeOfDay.mk 11 0).toMinutes = m % (24 * 60) ∧
      (TimeOfDay.mk 8 0).toMinutes ≤ m ∧
      m < (if (TimeOfDay.mk 20 0).toMinutes ≤ (TimeOfDay.mk 8 0).toMinutes
           then (TimeOfDay.mk 20 0).toMinutes + 24 * 60
           else (TimeOfDay.mk 20 0).toMinutes) :=
  C4_window_containment { hour := 8, minute := 0 } { hour := 20, minute := 0 } 3
    (by decide) (by decide) { hour := 11, minute := 0 } (by decide)

/-- C7: every input category is mapped to between 1 and 4 question strings,
and whenever the collaborator call for the category's computed context raises,
returns a non-list value, or returns an empty list, the category is mapped to
exactly the single canned question; the embedding is a total function, so no
failure escapes this boundary. -/
theorem C7_question_generation (llm : LLMOracle) (uid : Nat) (responses : List ResponseRec)
    (cats : List String) (c : String) (hc : c ∈ cats) :
    (c, questions_for_category llm uid responses c) ∈
      generate_questions_for_categories llm uid responses cats ∧
    1 ≤ (questions_for_category llm uid responses c).length ∧
    (questions_for_category llm uid responses c).length ≤ 4 ∧
    ((llm c (if get_recent_context uid responses c 3 = [] then none
             else some (get_recent_context uid responses c 3)) = LLMReply.raise ∨
      llm c (if get_recent_context uid responses c 3 = [] then none
             else some (get_recent_context uid responses c 3)) = LLMReply.notList ∨
      llm c (if get_recent_context uid responses c 3 = [] then none
             else some (get_recent_context uid responses c 3)) = LLMReply.value []) →
      questions_for_category llm uid responses c = [canned_question c]) := by
  refine ⟨List.mem_map.mpr ⟨c, hc, rfl⟩, ?_, ?_, ?_⟩
  · simp only [questions_for_category]
    cases hr : llm c (if get_recent_context uid responses c 3 = [] then none
        else some (get_recent_context uid responses c 3)) with
    | raise => simp
    | notList => simp
    | value qs =>
      by_cases hqs : qs = []
      · simp [hqs]
      · have : 0 < qs.length := List.length_pos.mpr hqs
        simp only [if_neg hqs, List.length_take]
        omega
  · simp only [questions_for_category]
    cases hr : llm c (if get_recent_context uid responses c 3 = [] then none
        else some (get_recent_context uid responses c 3)) with
    | raise => simp
    | notList => simp
    | value qs =>
      by_cases hqs : qs = []
      · simp [hqs]
      · simp only [if_neg hqs, List.length_take]
        omega
  · intro hbad
    simp only [questions_for_category]
    rcases hbad with h | h | h <;> rw [h] <;> simp

/-- Witness for C7_question_generation: a raising collaborator yields the
canned sleep question for the category sleep. -/
theorem C7_question_generation_witness :
    (("sleep", questions_for_category llm_fail 1 [] "sleep") ∈
      generate_questions_for_categories llm_fail 1 [] ["sleep"]) ∧
    questions_for_category llm_fail 1 [] "sleep" = [canned_question "sleep"] :=
  ⟨(C7_question_generation llm_fail 1 [] ["sleep"] "sleep" (by decide)).1,
   (C7_question_generation llm_fail 1 [] ["sleep"] "sleep" (by decide)).2.2.2
     (Or.inl (by decide))⟩

theorem alookup_append {α : Type} (c : String) (a b : List (String × α)) :
    alookup c (a ++ b) = match alookup c a with
      | some v => some v
      | none => alookup c b := by
  induction a with
  | nil => rfl
  | cons p rest ih =>
    obtain ⟨k, v⟩ := p
    simp only [List.cons_append, alookup]
    by_cases h : k = c
    · simp [h]
    · simp [h, ih]

theorem alookup_add_cats (c : String) (t : Int) (cs : List String) (acc : List (String × Int)) :
    alookup c (add_cats t cs acc) =
      match alookup c acc with
      | some v => some v
      | none => if c ∈ cs then some t else none := by
  induction cs generalizing acc with
  | nil => cases h : alookup c acc <;> simp [add_cats, h]
  | cons c0 cs ih =>
    show alookup c (add_cats t cs
        (if (alookup c0 acc).isSome then acc else acc ++ [(c0, t)])) = _
    rw [ih]
    by_cases h0 : (alookup c0 acc).isSome
    · rw [if_pos h0]
      cases h : alookup c acc with
      | some v => simp
      | none =>
        have hne : ¬ c = c0 := by
          intro heq
          rw [heq] at h
          rw [h] at h0
          simp at h0
        simp [List.mem_cons, hne]
    · rw [if_neg h0]
      rw [alookup_append]
      cases h : alookup c acc with
      | some v => simp
      | none =>
        by_cases hcc : c0 = c
        · subst hcc
          simp [alookup]
        · have hne : ¬ c = c0 := fun hh => hcc hh.symm
          simp only [alookup, if_neg hcc]
          simp [List.mem_cons, hne]

theorem alookup_collect_last_asked (c : String) (l : List Reminder)
    (acc : List (String × Int)) :
    alookup c (collect_last_asked l acc) =
      match alookup c acc with
      | some v => some v
      | none => first_with c l := by
  induction l generalizing acc with
  | nil => cases h : alookup c acc <;> simp [collect_last_asked, first_with, h]
  | cons r rs ih =>
    simp only [collect_last_asked]
    rw [ih, alookup_add_cats]
    cases h : alookup c acc with
    | some v => simp
    | none =>
      by_cases hc : c ∈ r.categories.getD []
      · simp [first_with, hc]
      · simp [first_with, hc]

theorem alookup_last_asked (db : List Reminder) (uid : Nat) (c : String) :
    alookup c (get_last_asked_times db uid) = first_with c (recent_user_reminders db uid) := by
  rw [get_last_asked_times, alookup_collect_last_asked]
  rfl

theorem first_with_eq_none (c : String) (l : List Reminder) :
    first_with c l = none ↔ ∀ r ∈ l, c ∉ r.categories.getD [] := by
  induction l with
  | nil => simp [first_with]
  | cons r0 rs ih =>
    simp only [first_with]
    by_cases hc0 : c ∈ r0.categories.getD []
    · simp [hc0]
    · simp [hc0, ih]

theorem first_with_mem (c : String) (l : List Reminder) (t : Int)
    (h : first_with c l = some t) :
    ∃ r ∈ l, c ∈ r.categories.getD [] ∧ r.scheduled_time = t := by
  induction l with
  | nil => simp [first_with] at h
  | cons r0 rs ih =>
    simp only [first_with] at h
    by_cases hc0 : c ∈ r0.categories.getD []
    · rw [if_pos hc0] at h
      exact ⟨r0, List.mem_cons_self _ _, hc0, Option.some.inj h⟩
    · rw [if_neg hc0] at h
      obtain ⟨r, hr, hcr, hrt⟩ := ih h
      exact ⟨r, List.mem_cons_of_mem _ hr, hcr, hrt⟩

theorem first_with_le (c : String) (l : List Reminder) (t : Int)
    (hpw : l.Pairwise (fun a b => b.scheduled_time ≤ a.scheduled_time))
    (h : first_with c l = some t) :
    ∀ r ∈ l, c ∈ r.categories.getD [] → r.scheduled_time ≤ t := by
  induction l with
  | nil => simp
  | cons r0 rs ih =>
    cases hpw with
    | cons h0 hrest =>
      intro r hr hcr
      simp only [first_with] at h
      by_cases hc0 : c ∈ r0.categories.getD []
      · rw [if_pos hc0] at h
        obtain rfl := Option.some.inj h
        rcases List.mem_cons.mp hr with rfl | hr'
        · exact le_refl _
        · exact h0 r hr'
      · rw [if_neg hc0] at h
        rcases List.mem_cons.mp hr with rfl | hr'
        · exact absurd hcr hc0
        · exact ih hrest h r hr' hcr

theorem mem_insert_desc {α : Type} (key : α → Int) (x a : α) (l : List α) :
    a ∈ insert_desc key x l ↔ a = x ∨ a ∈ l := by
  induction l with
  | nil => simp [insert_desc]
  | cons y ys ih =>
    simp only [insert_desc]
    by_cases hk : key y < key x
    · simp [hk]
    · simp only [if_neg hk, List.mem_cons, ih]
      tauto

theorem pairwise_insert_desc {α : Type} (key : α → Int) (x : α) (l : List α)
    (h : l.Pairwise (fun a b => key b ≤ key a)) :
    (insert_desc key x l).Pairwise (fun a b => key b ≤ key a) := by
  induction l with
  | nil => simp [insert_desc]
  | cons y ys ih =>
    cases h with
    | cons hy hys =>
      simp only [insert_desc]
      by_cases hk : key y < key x
      · rw [if_pos hk]
        refine List.Pairwise.cons ?_ (List.Pairwise.cons hy hys)
        intro z hz
        rcases List.mem_cons.mp hz with rfl | hz'
        · exact le_of_lt hk
        · exact le_trans (hy z hz') (le_of_lt hk)
      · rw [if_neg hk]
        refine List.Pairwise.cons ?_ (ih hys)
        intro z hz
        rcases (mem_insert_desc key x z ys).mp hz with rfl | hz'
        · exact not_lt.mp hk
        · exact hy z hz'

theorem sort_desc_pairwise {α : Type} (key : α → Int) (l : List α) :
    (sort_desc key l).Pairwise (fun a b => key b ≤ key a) := by
  induction l with
  | nil => simp [sort_desc]
  | cons x xs ih => exact pairwise_insert_desc key x _ ih

theorem recent_user_reminders_pairwise (db : List Reminder) (uid : Nat) :
    (recent_user_reminders db uid).Pairwise
      (fun a b => b.scheduled_time ≤ a.scheduled_time) := by
  rw [recent_user_reminders]
  exact (sort_desc_pairwise _ _).sublist (List.take_sublist _ _)

theorem mem_eligible_pre (la : List (String × Int)) (now : Int) (c : String) :
    c ∈ eligible_pre la now ↔ c ∈ all_categories ∧ is_eligible la now c = true := by
  simp [eligible_pre, List.mem_filter]

/-- C3: for every catalog category, absence from the category sets of the
user's last 100 reminders (ordered by scheduled_time descending) makes it
eligible; otherwise its last-asked time is the maximum scheduled_time among
those reminders containing it and it is eligible exactly when
now - last_asked reaches 60 * min_interval minutes (12h default); an empty
eligible set falls back to exactly ["mental_state"], the provably unique
shortest-interval catalog category. -/
theorem C3_eligibility (db : List Reminder) (uid : Nat) (now : Int) (c : String)
    (hc : c ∈ all_categories) :
    ((∀ r ∈ recent_user_reminders db uid, c ∉ r.categories.getD []) →
      c ∈ eligible_pre (get_last_asked_times db uid) now) ∧
    (∀ t : Int, alookup c (get_last_asked_times db uid) = some t →
      ((∃ r ∈ recent_user_reminders db uid,
          c ∈ r.categories.getD [] ∧ r.scheduled_time = t) ∧
       (∀ r ∈ recent_user_reminders db uid, c ∈ r.categories.getD [] →
          r.scheduled_time ≤ t) ∧
       (c ∈ eligible_pre (get_last_asked_times db uid) now ↔
          60 * (min_hours_for c : Int) ≤ now - t))) ∧
    (alookup c (get_last_asked_times db uid) = none ↔
      ∀ r ∈ recent_user_reminders db uid, c ∉ r.categories.getD []) ∧
    (eligible_pre (get_last_asked_times db uid) now = [] →
      eligible_categories (get_last_asked_times db uid) now = ["mental_state"]) ∧
    ("mental_state" ∈ all_categories ∧
      ∀ c' ∈ all_categories, c' ≠ "mental_state" →
        min_hours_for "mental_state" < min_hours_for c') := by
  have hnone : alookup c (get_last_asked_times db uid) = none ↔
      ∀ r ∈ recent_user_reminders db uid, c ∉ r.categories.getD [] := by
    rw [alookup_last_asked]
    exact first_with_eq_none c _
  refine ⟨?_, ?_, hnone, ?_, ?_⟩
  · intro h
    rw [mem_eligible_pre]
    refine ⟨hc, ?_⟩
    simp [is_eligible, hnone.mpr h]
  · intro t ht
    have htf : first_with c (recent_user_reminders db uid) = some t := by
      rw [← alookup_last_asked]
      exact ht
    refine ⟨first_with_mem c _ t htf, first_with_le c _ t
      (recent_user_reminders_pairwise db uid) htf, ?_⟩
    rw [mem_eligible_pre]
    simp [is_eligible, ht, hc]
  · intro h
    simp [eligible_categories, h]
  · decide

/-- Witness for C3_eligibility: with no reminder history, sleep is eligible. -/
theorem C3_eligibility_witness :
    "sleep" ∈ eligible_pre (get_last_asked_times [] 1) 0 :=
  (C3_eligibility [] 1 0 "sleep" (by decide)).1
    (by simp [recent_user_reminders, sort_desc])

theorem schedule_slots_grow (uid : Nat) (nl ts tz : Int) (data : ReminderData)
    (nr qp : Nat) (slots : List (Nat × TimeOfDay)) (db : List Reminder) :
    ∀ x ∈ db, x ∈ (schedule_slots uid nl ts tz data nr qp slots db).1 := by
  induction slots generalizing db with
  | nil => intro x hx; simpa [schedule_slots] using hx
  | cons q rest ih =>
    obtain ⟨i, t⟩ := q
    intro x hx
    simp only [schedule_slots]
    split
    · exact ih db x hx
    · split
      · exact ih db x hx
      · split
        · exact ih db x hx
        · exact ih _ x (List.mem_append_left _ hx)

theorem schedule_slots_covered (uid : Nat) (nl ts tz : Int) (data : ReminderData)
    (nr qp : Nat) (slots : List (Nat × TimeOfDay)) (db : List Reminder) :
    ∀ p ∈ slots,
      (ts + (p.2.toMinutes : Int) ≤ nl) ∨
      (∃ r ∈ (schedule_slots uid nl ts tz data nr qp slots db).1,
        r.user_id = uid ∧ r.scheduled_time = ts + (p.2.toMinutes : Int) - tz) ∨
      slot_questions data.questions qp nr p.1 = [] := by
  induction slots generalizing db with
  | nil => simp
  | cons q rest ih =>
    obtain ⟨i, t⟩ := q
    intro p hp
    rcases List.mem_cons.mp hp with rfl | hp'
    · simp only [schedule_slots]
      split
      case isTrue h1 => exact Or.inl h1
      case isFalse h1 =>
        split
        case isTrue h2 =>
          obtain ⟨r, hr, hpred⟩ := List.any_eq_true.mp h2
          rw [decide_eq_true_eq] at hpred
          refine Or.inr (Or.inl ⟨r, ?_, hpred.1, hpred.2⟩)
          exact schedule_slots_grow uid nl ts tz data nr qp rest db r hr
        case isFalse h2 =>
          split
          case isTrue h3 => exact Or.inr (Or.inr h3)
          case isFalse h3 =>
            refine Or.inr (Or.inl ⟨mk_scheduled_reminder uid (ts + (t.toMinutes : Int) - tz)
              (slot_questions data.questions qp nr i) data.categories, ?_, rfl, rfl⟩)
            exact schedule_slots_grow uid nl ts tz data nr qp rest _ _
              (List.mem_append_right _ (List.mem_singleton_self _))
    · simp only [schedule_slots]
      split
      · exact ih db p hp'
      · split
        · exact ih db p hp'
        · split
          · exact ih db p hp'
          · rcases ih _ p hp' with h | ⟨r, hr, hru, hrt⟩ | h
            · exact Or.inl h
            · exact Or.inr (Or.inl ⟨r, hr, hru, hrt⟩)
            · exact Or.inr (Or.inr h)

theorem schedule_slots_skip (uid : Nat) (nl ts tz : Int) (data : ReminderData)
    (nr qp : Nat) (slots : List (Nat × TimeOfDay)) (db : List Reminder)
    (h : ∀ p ∈ slots,
      (ts + (p.2.toMinutes : Int) ≤ nl) ∨
      (∃ r ∈ db, r.user_id = uid ∧ r.scheduled_time = ts + (p.2.toMinutes : Int) - tz) ∨
      slot_questions data.questions qp nr p.1 = []) :
    schedule_slots uid nl ts tz data nr qp slots db = (db, 0) := by
  induction slots with
  | nil => rfl
  | cons q rest ih =>
    obtain ⟨i, t⟩ := q
    have hhead := h (i, t) (List.mem_cons_self _ _)
    have htail : ∀ p ∈ rest,
        (ts + (p.2.toMinutes : Int) ≤ nl) ∨
        (∃ r ∈ db, r.user_id = uid ∧ r.scheduled_time = ts + (p.2.toMinutes : Int) - tz) ∨
        slot_questions data.questions qp nr p.1 = [] :=
      fun p hp => h p (List.mem_cons_of_mem _ hp)
    simp only [schedule_slots]
    split
    case isTrue h1 => exact ih htail
    case isFalse h1 =>
      split
      case isTrue h2 => exact ih htail
      case isFalse h2 =>
        rcases hhead with h1' | hex | hrq
        · exact absurd h1' h1
        · exfalso
          obtain ⟨r, hr, hru, hrt⟩ := hex
          exact h2 (List.any_eq_true.mpr ⟨r, hr, by simp [hru, hrt]⟩)
        · rw [if_pos hrq]
          exact ih htail

theorem schedule_slots_created (uid : Nat) (nl ts tz : Int) (data : ReminderData)
    (nr qp : Nat) (slots : List (Nat × TimeOfDay)) (db : List Reminder) :
    ∀ r' ∈ (schedule_slots uid nl ts tz data nr qp slots db).1,
      r' ∈ db ∨ ∃ i t, (i, t) ∈ slots ∧
        slot_questions data.questions qp nr i ≠ [] ∧
        r' = mk_scheduled_reminder uid (ts + (t.toMinutes : Int) - tz)
          (slot_questions data.questions qp nr i) data.categories := by
  induction slots generalizing db with
  | nil => intro r' hr'; exact Or.inl (by simpa [schedule_slots] using hr')
  | cons q rest ih =>
    obtain ⟨i, t⟩ := q
    intro r' hr'
    simp only [schedule_slots] at hr'
    split at hr'
    · rcases ih db r' hr' with h | ⟨j, u, hj, hne, hval⟩
      · exact Or.inl h
      · exact Or.inr ⟨j, u, List.mem_cons_of_mem _ hj, hne, hval⟩
    · split at hr'
      · rcases ih db r' hr' with h | ⟨j, u, hj, hne, hval⟩
        · exact Or.inl h
        · exact Or.inr ⟨j, u, List.mem_cons_of_mem _ hj, hne, hval⟩
      · split at hr'
        case isTrue h3 =>
          rcases ih db r' hr' with h | ⟨j, u, hj, hne, hval⟩
          · exact Or.inl h
          · exact Or.inr ⟨j, u, List.mem_cons_of_mem _ hj, hne, hval⟩
        case isFalse h3 =>
          rcases ih _ r' hr' with h | ⟨j, u, hj, hne, hval⟩
          · rcases List.mem_append.mp h with h' | h'
            · exact Or.inl h'
            · refine Or.inr ⟨i, t, List.mem_cons_self _ _, h3, ?_⟩
              simpa using h'
          · exact Or.inr ⟨j, u, List.mem_cons_of_mem _ hj, hne, hval⟩

theorem mem_with_index {α : Type} (j : Nat) (l : List α) (p : Nat × α)
    (h : p ∈ with_index j l) : p.2 ∈ l := by
  induction l generalizing j with
  | nil => simp [with_index] at h
  | cons x xs ih =>
    simp only [with_index, List.mem_cons] at h
    rcases h with rfl | h'
    · exact List.mem_cons_self _ _
    · exact List.mem_cons_of_mem _ (ih (j + 1) h')

theorem eligible_categories_ne_nil (la : List (String × Int)) (now : Int) :
    eligible_categories la now ≠ [] := by
  rw [eligible_categories]
  by_cases h : eligible_pre la now = [] <;> simp [h]

theorem ite_take_ne_nil (eligible : List String) (he : eligible ≠ [])
    (t1 : List String) : (if t1 = [] then eligible.take 3 else t1) ≠ [] := by
  by_cases h : t1 = []
  · rw [if_pos h]
    cases eligible with
    | nil => exact absurd rfl he
    | cons x xs => simp
  · rw [if_neg h]
    exact h

theorem select_target_ne_nil (eligible : List String) (analysis : CoverageAnalysis)
    (he : eligible ≠ []) : select_target_categories eligible analysis ≠ [] :=
  ite_take_ne_nil eligible he _

theorem map_fst_pair_map {β : Type} (f : String → β) (l : List String) :
    (l.map (fun c => (c, f c))).map Prod.fst = l := by
  induction l with
  | nil => rfl
  | cons x xs ih => simp [ih]

theorem generate_categories_eq (llm : LLMOracle) (now : Int) (uid : Nat)
    (db : List Reminder) (responses : List ResponseRec) :
    (generate_intelligent_reminder llm now uid db responses).categories =
      select_target_categories (eligible_categories (get_last_asked_times db uid) now)
        (analyze_category_coverage uid responses now 24) := by
  simp only [generate_intelligent_reminder, generate_questions_for_categories]
  exact map_fst_pair_map _ _

theorem create_unfold (llm : LLMOracle) (now tz : Int) (wake endT : TimeOfDay)
    (uid : Nat) (db : List Reminder) (responses : List ResponseRec) :
    create_scheduled_reminders_for_user llm now tz wake endT uid db responses =
      schedule_slots uid (now + tz) ((Int.fdiv (now + tz) 1440) * 1440) tz
        (generate_intelligent_reminder llm now uid db responses)
        (min 4 (max 2 ((generate_intelligent_reminder llm now uid db
          responses).questions.length / 3)))
        (max 1 ((generate_intelligent_reminder llm now uid db responses).questions.length /
          (min 4 (max 2 ((generate_intelligent_reminder llm now uid db
            responses).questions.length / 3)))))
        (with_index 0 (calculate_reminder_times wake endT
          (min 4 (max 2 ((generate_intelligent_reminder llm now uid db
            responses).questions.length / 3)))))
        db := rfl

theorem generate_categories_ne_nil (llm : LLMOracle) (now : Int) (uid : Nat)
    (db : List Reminder) (responses : List ResponseRec) :
    (generate_intelligent_reminder llm now uid db responses).categories ≠ [] := by
  rw [generate_categories_eq]
  exact select_target_ne_nil _ _ (eligible_categories_ne_nil _ _)

/-- C2 amended: the duplicate-slot guard makes the second run a no-op whenever
it generates the same reminder data as the first run (same questions and
categories, hence the same slot count, slot times and question slices): every
slot is then either in the past, already persisted by the first run, or has an
empty question slice, so 0 new reminders are created.  The counterexample
shows the unconditional claim fails when the first run's own writes change
eligibility. -/
theorem C2_idempotent_amended (llm : LLMOracle) (now tz : Int) (wake endT : TimeOfDay)
    (uid : Nat) (db : List Reminder) (responses : List ResponseRec)
    (h : generate_intelligent_reminder llm now uid
        (create_scheduled_reminders_for_user llm now tz wake endT uid db responses).1
        responses =
      generate_intelligent_reminder llm now uid db responses) :
    (create_scheduled_reminders_for_user llm now tz wake endT uid
      (create_scheduled_reminders_for_user llm now tz wake endT uid db responses).1
      responses).2 = 0 := by
  set G := generate_intelligent_reminder llm now uid db responses with hG
  set run1 := (create_scheduled_reminders_for_user llm now tz wake endT uid db responses).1
    with hrun1
  have hcond : ∀ p ∈ with_index 0 (calculate_reminder_times wake endT
      (min 4 (max 2 (G.questions.length / 3)))),
      ((Int.fdiv (now + tz) 1440) * 1440 + (p.2.toMinutes : Int) ≤ now + tz) ∨
      (∃ r ∈ run1, r.user_id = uid ∧
        r.scheduled_time = (Int.fdiv (now + tz) 1440) * 1440 + (p.2.toMinutes : Int) - tz) ∨
      slot_questions G.questions
        (max 1 (G.questions.length / (min 4 (max 2 (G.questions.length / 3)))))
        (min 4 (max 2 (G.questions.length / 3))) p.1 = [] := by
    intro p hp
    have hcov := schedule_slots_covered uid (now + tz) ((Int.fdiv (now + tz) 1440) * 1440) tz G
      (min 4 (max 2 (G.questions.length / 3)))
      (max 1 (G.questions.length / (min 4 (max 2 (G.questions.length / 3)))))
      (with_index 0 (calculate_reminder_times wake endT
        (min 4 (max 2 (G.questions.length / 3))))) db p hp
    rcases hcov with h1 | ⟨r, hr, hru, hrt⟩ | h3
    · exact Or.inl h1
    · refine Or.inr (Or.inl ⟨r, ?_, hru, hrt⟩)
      rw [hrun1, create_unfold llm now tz wake endT uid db responses, ← hG]
      exact hr
    · exact Or.inr (Or.inr h3)
  rw [create_unfold llm now tz wake endT uid run1 responses, h,
    schedule_slots_skip uid (now + tz) ((Int.fdiv (now + tz) 1440) * 1440) tz G
      (min 4 (max 2 (G.questions.length / 3)))
      (max 1 (G.questions.length / (min 4 (max 2 (G.questions.length / 3)))))
      (with_index 0 (calculate_reminder_times wake endT
        (min 4 (max 2 (G.questions.length / 3)))))
      run1 hcond]

/-- Witness for C2_idempotent_amended: with "now" past the whole window the
first run creates nothing, the generated data is unchanged, and the second run
schedules 0. -/
theorem C2_idempotent_amended_witness :
    (create_scheduled_reminders_for_user llm_one_each 2740 0 w8 w20 1
      (create_scheduled_reminders_for_user llm_one_each 2740 0 w8 w20 1 [] []).1 []).2 = 0 :=
  C2_idempotent_amended llm_one_each 2740 0 w8 w20 1 [] [] (by decide)

/-- C5 amended: every reminder persisted by a scheduling run (beyond the rows
already in the table) has a non-empty questions mapping and a non-empty
category list; the manual create endpoint, by contrast, persists its payload
exactly as given, with no non-emptiness validation (see the counterexample). -/
theorem C5_no_empty_amended (llm : LLMOracle) (now tz : Int) (wake endT : TimeOfDay)
    (uid : Nat) (db : List Reminder) (responses : List ResponseRec) :
    (∀ r' ∈ (create_scheduled_reminders_for_user llm now tz wake endT uid db responses).1,
      r' ∈ db ∨ (r'.questions ≠ [] ∧ r'.categories.getD [] ≠ [])) ∧
    (∀ (ue : Bool) (db0 db1 : List Reminder) (rc : ReminderCreate),
      create_reminder ue db0 rc = Except.ok db1 → db1 = db0 ++ [reminder_of_create rc]) := by
  constructor
  · intro r' hr'
    rcases schedule_slots_created uid (now + tz) ((Int.fdiv (now + tz) 1440) * 1440) tz
        (generate_intelligent_reminder llm now uid db responses) _ _ _ db r' hr' with
      hmem | ⟨i, t, _, hne, rfl⟩
    · exact Or.inl hmem
    · refine Or.inr ⟨hne, ?_⟩
      simpa [mk_scheduled_reminder] using
        generate_categories_ne_nil llm now uid db responses
  · intro ue db0 db1 rc hok
    cases ue with
    | false => simp [create_reminder] at hok
    | true =>
      simp only [create_reminder, if_pos] at hok
      exact (Except.ok.inj hok).symm

/-- Witness for C5_no_empty_amended: a pre-existing row of the table is
untouched by the run. -/
theorem C5_no_empty_amended_witness :
    r_completed ∈ [r_completed] ∨
      (r_completed.questions ≠ [] ∧ r_completed.categories.getD [] ≠ []) :=
  (C5_no_empty_amended llm_fail 360 0 w8 w20 1 [r_completed] []).1 r_completed (by decide)

/-- C8 amended: every reminder persisted by a scheduling run carries status
SCHEDULED, the full target category list of the run, a scheduled_time that is
the UTC conversion of one computed local slot, and a questions dict that is a
non-empty contiguous slice of the run-global flattened numbering q1..qN — the
keys keep that numbering and are not renumbered from q1 within each reminder
(see the counterexample). -/
theorem C8_per_reminder_amended (llm : LLMOracle) (now tz : Int) (wake endT : TimeOfDay)
    (uid : Nat) (db : List Reminder) (responses : List ResponseRec) :
    ∀ r' ∈ (create_scheduled_reminders_for_user llm now tz wake endT uid db responses).1,
      r' ∈ db ∨
      (r'.status = ReminderStatus.scheduled ∧ r'.user_id = uid ∧
       r'.categories = some (generate_intelligent_reminder llm now uid db responses).categories ∧
       (∃ s k : Nat, r'.questions =
          ((generate_intelligent_reminder llm now uid db responses).questions.drop s).take k ∧
          r'.questions ≠ []) ∧
       (∃ t ∈ calculate_reminder_times wake endT
            (min 4 (max 2 ((generate_intelligent_reminder llm now uid db
              responses).questions.length / 3))),
          r'.scheduled_time =
            (Int.fdiv (now + tz) 1440) * 1440 + (t.toMinutes : Int) - tz)) := by
  intro r' hr'
  rcases schedule_slots_created uid (now + tz) ((Int.fdiv (now + tz) 1440) * 1440) tz
      (generate_intelligent_reminder llm now uid db responses)
      (min 4 (max 2 ((generate_intelligent_reminder llm now uid db
        responses).questions.length / 3)))
      (max 1 ((generate_intelligent_reminder llm now uid db responses).questions.length /
        (min 4 (max 2 ((generate_intelligent_reminder llm now uid db
          responses).questions.length / 3)))))
      (with_index 0 (calculate_reminder_times wake endT
        (min 4 (max 2 ((generate_intelligent_reminder llm now uid db
          responses).questions.length / 3)))))
      db r' hr' with
    hmem | ⟨i, t, hit, hne, rfl⟩
  · exact Or.inl hmem
  · right
    refine ⟨rfl, rfl, rfl, ?_, ?_⟩
    · refine ⟨i * (max 1 ((generate_intelligent_reminder llm now uid db
        responses).questions.length /
        (min 4 (max 2 ((generate_intelligent_reminder llm now uid db
          responses).questions.length / 3))))), _, rfl, hne⟩
    · exact ⟨t, mem_with_index 0 _ (i, t) hit, rfl⟩

/-- Witness for C8_per_reminder_amended: a pre-existing row of the table is
untouched by the run. -/
theorem C8_per_reminder_amended_witness :
    r_completed ∈ [r_completed] ∨
      (r_completed.status = ReminderStatus.scheduled ∧ r_completed.user_id = 1 ∧
       r_completed.categories =
         some (generate_intelligent_reminder llm_fail 360 1 [r_completed] []).categories ∧
       (∃ s k : Nat, r_completed.questions =
          ((generate_intelligent_reminder llm_fail 360 1 [r_completed] []).questions.drop
            s).take k ∧
          r_completed.questions ≠ []) ∧
       (∃ t ∈ calculate_reminder_times w8 w20
            (min 4 (max 2 ((generate_intelligent_reminder llm_fail 360 1 [r_completed]
              []).questions.length / 3))),
          r_completed.scheduled_time =
            (Int.fdiv (360 + 0) 1440) * 1440 + (t.toMinutes : Int) - 0)) :=
  C8_per_reminder_amended llm_fail 360 0 w8 w20 1 [r_completed] [] r_completed (by decide)

end HabitBot
